import Mathlib

/-!
Shallow embedding of the Power Supps storefront (src/app.py): session cart,
shipping fee, checkout, reviews and report aggregation, with theorems about
the behaviour of each operation.

Conventions of the embedding:
* Python `float` prices are modelled as `ℚ` (the literals 10.00, 5.00, 19.90
  and 250 appearing in the source are all exactly representable).
* The Flask session `carrinho` dict is an association list with unique keys.
  Python dict keys may be strings or ints (`adicionar_ao_carrinho` stores
  `str(id)` keys, `remover_do_carrinho` tests the int `produto_id`), so keys
  are a sum type `PyKey`.
* A SQLAlchemy table is a list of rows; `query.get` / `filter_by(...).first()`
  is `List.find?`; autoincrement primary keys are explicit counters.
* An uncaught Python exception is a dedicated result constructor (or `none`).
-/

/-- A Python dict key as used for the session cart: either a string key
(written by `adicionar_ao_carrinho` / `alterar_quantidade`) or an int key
(tested by `remover_do_carrinho`). Distinct variants never compare equal,
exactly as `5 == "5"` is `False` in Python. -/
inductive PyKey where
  | pstr (s : String)
  | pint (n : Nat)
deriving DecidableEq, Repr

/-- The session cart `session['carrinho']`: product key ↦ quantity. -/
abbrev Cart := List (PyKey × Int)

/-- Dict lookup `carrinho.get(k)` / `carrinho[k]`. -/
def cartGet : Cart → PyKey → Option Int
  | [], _ => none
  | (k', v) :: rest, k => if k' = k then some v else cartGet rest k

/-- Dict assignment `carrinho[k] = v`: replaces in place, or appends a new
entry at the end (Python dicts preserve insertion order). -/
def cartSet : Cart → PyKey → Int → Cart
  | [], k, v => [(k, v)]
  | (k', v') :: rest, k, v =>
    if k' = k then (k', v) :: rest else (k', v') :: cartSet rest k v

/-- Dict deletion `del carrinho[k]`. -/
def cartDel : Cart → PyKey → Cart
  | [], _ => []
  | (k', v') :: rest, k => if k' = k then rest else (k', v') :: cartDel rest k

/-- Membership test `k in carrinho`. -/
def cartHas (c : Cart) (k : PyKey) : Bool :=
  (cartGet c k).isSome

/-- Route `adicionar_ao_carrinho` (src/app.py lines 263-278): the key is
forced to be a STRING (`id_str = str(id)`), then
`carrinho[id_str] = carrinho.get(id_str, 0) + 1`. -/
def adicionar_ao_carrinho (c : Cart) (id : Nat) : Cart :=
  let id_str := PyKey.pstr (toString id)
  cartSet c id_str ((cartGet c id_str).getD 0 + 1)

/-- Route `alterar_quantidade` (src/app.py lines 280-298): acts only when
`str(produto_id)` is a key of the cart; `"mais"` increments, `"menos"`
decrements and deletes the entry when the result is ≤ 0; any other action
leaves the cart unchanged. -/
def alterar_quantidade (c : Cart) (produto_id : Nat) (acao : String) : Cart :=
  let k := PyKey.pstr (toString produto_id)
  match cartGet c k with
  | none => c
  | some q =>
    if acao = "mais" then cartSet c k (q + 1)
    else if acao = "menos" then
      if q - 1 ≤ 0 then cartDel c k else cartSet c k (q - 1)
    else c

/-- Route `remover_do_carrinho` (src/app.py lines 300-307): tests the INT
`produto_id` for membership (`if produto_id in carrinho`) and deletes it if
present. Note the cart's real entries are under string keys. -/
def remover_do_carrinho (c : Cart) (produto_id : Nat) : Cart :=
  if cartHas c (PyKey.pint produto_id) then cartDel c (PyKey.pint produto_id)
  else c

/-- Route `limpar_carrinho` (src/app.py lines 309-313): `session['carrinho'] = {}`. -/
def limpar_carrinho : Cart := []

/-- One cart-mutating request. -/
inductive CartOp where
  | add (id : Nat)
  | alterar (id : Nat) (acao : String)
  | remover (id : Nat)
  | limpar
deriving Repr

/-- Apply one cart-mutating request to the session cart. -/
def applyCartOp (c : Cart) : CartOp → Cart
  | .add id => adicionar_ao_carrinho c id
  | .alterar id acao => alterar_quantidade c id acao
  | .remover id => remover_do_carrinho c id
  | .limpar => limpar_carrinho

/-- The cart reached from the empty session cart by a sequence of requests. -/
def runCartOps (ops : List CartOp) : Cart :=
  ops.foldl applyCartOp []

/-- The cart invariant: every stored entry has quantity ≥ 1. -/
def cartInv (c : Cart) : Prop :=
  ∀ kv ∈ c, 1 ≤ kv.2

/-! ### Database rows (src/app.py lines 55-98) -/

/-- Row of table `Produto`: id, nome, imagem, preco. -/
structure Produto where
  id : Nat
  nome : String
  imagem : String
  preco : ℚ
deriving DecidableEq, Repr

/-- Row of table `Usuario`: id, nome (unique), senha. -/
structure Usuario where
  id : Nat
  nome : String
  senha : String
deriving DecidableEq, Repr

/-- Row of table `Pedido`: id, usuario_id. (The timestamp column is an
external clock value and plays no part in any claim.) -/
structure Pedido where
  id : Nat
  usuario_id : Nat
deriving DecidableEq, Repr

/-- Row of table `ItemPedido`: id, pedido_id, produto_id. There is no
quantity column: quantity is modelled by one row per unit. -/
structure ItemPedido where
  id : Nat
  pedido_id : Nat
  produto_id : Nat
deriving DecidableEq, Repr

/-- Row of table `Endereco`: nullable text columns, filled from the checkout
form (`request.form.get` yields `None` for an absent field). -/
structure Endereco where
  id : Nat
  pedido_id : Nat
  cep : Option String
  rua : Option String
  numero_endereco : Option String
  complemento : Option String
  bairro : Option String
  cidade : Option String
  estado : Option String
deriving DecidableEq, Repr

/-- Row of table `Avaliacao`: id, usuario_id, produto_id, nota, comentario.
(The timestamp column is an external clock value, omitted.) -/
structure Avaliacao where
  id : Nat
  usuario_id : Nat
  produto_id : Nat
  nota : Int
  comentario : String
deriving DecidableEq, Repr

/-- The persistent SQLite store: one list of rows per table, plus the
autoincrement counter of each table written by the routes. -/
structure Store where
  produtos : List Produto
  usuarios : List Usuario
  pedidos : List Pedido
  itens : List ItemPedido
  enderecos : List Endereco
  avaliacoes : List Avaliacao
  nextPedidoId : Nat
  nextItemId : Nat
  nextEnderecoId : Nat
  nextAvaliacaoId : Nat
deriving DecidableEq, Repr

/-- The Flask session keys the core uses: `usuario`, `carrinho`,
`cep_usuario`, `frete`. -/
structure Session where
  usuario : Option String
  carrinho : Cart
  cep_usuario : Option String
  frete : Option ℚ
deriving DecidableEq, Repr

/-- `Produto.query.get(pid)`: primary-key lookup. -/
def findProduto (st : Store) (pid : Nat) : Option Produto :=
  st.produtos.find? (fun p => p.id == pid)

/-- `Usuario.query.filter_by(nome=nome).first()`. -/
def findUsuario (st : Store) (nome : String) : Option Usuario :=
  st.usuarios.find? (fun u => u.nome == nome)

/-- Decimal parsing of a string, as `int(s)` does for the strings at hand
(`String.toNat?` restated over the character list, so that concrete
instances reduce). -/
def strToNat? (s : String) : Option Nat :=
  if s.data ≠ [] ∧ s.data.all Char.isDigit then
    some (s.data.foldl (fun n c => n * 10 + (c.toNat - Char.toNat '0')) 0)
  else none

/-- The characters of a string after Python's `str.strip()`: leading and
trailing whitespace removed. -/
def strippedChars (s : String) : List Char :=
  ((s.data.dropWhile Char.isWhitespace).reverse.dropWhile
    Char.isWhitespace).reverse

/-- Coercion of a cart key to a `Produto` primary key, as performed by
`int(prod_id_str)` (lines 219, 328) and by SQLAlchemy's bind coercion in
`Produto.query.get(pid)` (line 393). A non-numeric string key yields `none`;
such keys never occur, since every key the routes write is `str(id)` of a
route-converter int. -/
def pyKeyToId : PyKey → Option Nat
  | .pstr s => strToNat? s
  | .pint n => some n

/-- Cart-key product lookup: coerce the key, then `Produto.query.get`. -/
def getProdutoByKey (st : Store) (k : PyKey) : Option Produto :=
  (pyKeyToId k).bind (findProduto st)

/-! ### Shipping (src/app.py lines 231-250 and 315-344) -/

/-- The cart subtotal loop of `calcular_frete` (lines 326-331) and of the
`carrinho` view (lines 216-229): entries whose product no longer exists are
skipped. -/
def cartSubtotal (st : Store) : Cart → ℚ
  | [] => 0
  | (k, quantidade) :: rest =>
    match getProdutoByKey st k with
    | none => cartSubtotal st rest
    | some produto => produto.preco * (quantidade : ℚ) + cartSubtotal st rest

/-- The flat shipping-fee rule of `calcular_frete` (lines 333-337):
`0.0` when the subtotal reaches 250, else `19.90`. -/
def freteOf (total : ℚ) : ℚ :=
  if total ≥ 250 then 0 else 19.90

/-- The free-shipping flag `tem_frete_gratis` of the `carrinho` view
(lines 233-235): subtotal ≥ the threshold `frete_minimo = 250`. -/
def tem_frete_gratis (total : ℚ) : Bool :=
  total ≥ 250

/-- Route `calcular_frete` (src/app.py lines 315-344). `none` models the
rejection path (`flash("CEP inválido...")` and redirect with the session
untouched); `some sess'` is the success path, which stores the postal code
and the computed fee in the session. The guard is
`if not cep or len(cep) < 8` on the RAW form value: an absent field and the
empty string are falsy, and the length test performs no stripping. -/
def calcular_frete (st : Store) (sess : Session) (cep : Option String) :
    Option Session :=
  match cep with
  | none => none
  | some c =>
    if c.length < 8 then none
    else
      let total := cartSubtotal st sess.carrinho
      let frete := freteOf total
      some { sess with cep_usuario := some c, frete := some frete }

/-! ### Checkout (src/app.py lines 350-424) -/

/-- The session state written by the success path of `calcular_frete`
(lines 339-341): the raw postal code and the fee of the subtotal at
computation time. -/
def freteSession (st : Store) (sess : Session) (cep : String) : Session :=
  { sess with cep_usuario := some cep,
              frete := some (freteOf (cartSubtotal st sess.carrinho)) }

/-- The address form read by `finalizar_compra` via `request.form.get`
(lines 357-364): an absent field is `none`. -/
structure CheckoutForm where
  cep : Option String
  rua : Option String
  numero : Option String
  complemento : Option String
  bairro : Option String
  cidade : Option String
  estado : Option String
  email : Option String
deriving DecidableEq, Repr

/-- Python truthiness of a `request.form.get` result: `None` and the empty
string are falsy. -/
def truthy : Option String → Bool
  | none => false
  | some s => s != ""

/-- The validation `all([cep, rua, numero_endereco, bairro, cidade, estado,
email_cliente])` of line 366. `complemento` is NOT required. -/
def formComplete (f : CheckoutForm) : Bool :=
  truthy f.cep && truthy f.rua && truthy f.numero && truthy f.bairro &&
    truthy f.cidade && truthy f.estado && truthy f.email

/-- The item loop of `finalizar_compra` (lines 392-406): for each cart entry
whose product resolves, accumulate `preco * quantidade` into the total and
create one `ItemPedido` row per unit (`for _ in range(quantidade)`), with
consecutive autoincrement ids. Returns (total, new item rows, next item id).
-/
def checkoutLoop (st : Store) (pedidoId : Nat) :
    Cart → ℚ → Nat → ℚ × List ItemPedido × Nat
  | [], total, nid => (total, [], nid)
  | (pid, quantidade) :: rest, total, nid =>
    match getProdutoByKey st pid with
    | none => checkoutLoop st pedidoId rest total nid
    | some prod =>
      let newItems := (List.range quantidade.toNat).map
        (fun i => ItemPedido.mk (nid + i) pedidoId prod.id)
      let r := checkoutLoop st pedidoId rest
        (total + prod.preco * (quantidade : ℚ)) (nid + quantidade.toNat)
      (r.1, newItems ++ r.2.1, r.2.2)

/-- Outcome of `finalizar_compra` on a POST request. `authRequired` is the
redirect to login (line 352), `validationError` the flash-and-redirect of
lines 366-368, `crash` the uncaught `AttributeError` when the session user
has no `Usuario` row (line 371), and `ok` the committed state: the new
store, the new session (cart cleared), the computed total, and whether the
confirmation e-mail attempt failed (its failure is caught at lines 419-420
and only printed). -/
inductive CheckoutResult where
  | authRequired
  | validationError
  | crash
  | ok (st' : Store) (sess' : Session) (total : ℚ) (notificationFailed : Bool)
deriving DecidableEq, Repr

/-- Route `finalizar_compra`, POST branch (src/app.py lines 350-424).
`emailFails` says whether the notification send would raise; the code
catches that exception after the commit, so it only shows up in the
`notificationFailed` flag of the result. -/
def finalizar_compra (st : Store) (sess : Session) (form : CheckoutForm)
    (emailFails : Bool) : CheckoutResult :=
  match sess.usuario with
  | none => .authRequired
  | some uname =>
    if formComplete form then
      match findUsuario st uname with
      | none => .crash
      | some usuario =>
        let pedidoId := st.nextPedidoId
        let pedido : Pedido := ⟨pedidoId, usuario.id⟩
        let endereco : Endereco :=
          ⟨st.nextEnderecoId, pedidoId, form.cep, form.rua, form.numero,
            form.complemento, form.bairro, form.cidade, form.estado⟩
        let r := checkoutLoop st pedidoId sess.carrinho 0 st.nextItemId
        let st' : Store :=
          { st with
            pedidos := st.pedidos ++ [pedido],
            enderecos := st.enderecos ++ [endereco],
            itens := st.itens ++ r.2.1,
            nextPedidoId := pedidoId + 1,
            nextEnderecoId := st.nextEnderecoId + 1,
            nextItemId := r.2.2 }
        let sess' : Session := { sess with carrinho := [] }
        .ok st' sess' r.1 emailFails
    else .validationError

/-- The store after a checkout result: only the `ok` outcome commits
anything; the three failure outcomes return before any row is created. -/
def checkoutStore (st : Store) : CheckoutResult → Store
  | .ok st' _ _ _ => st'
  | _ => st

/-! ### Reviews (src/app.py lines 426-440) -/

/-- Outcome of `avaliar`: redirect to login, uncaught `AttributeError`
(session user without a `Usuario` row), or the new store. -/
inductive AvaliarResult where
  | authRequired
  | crash
  | ok (st' : Store)
deriving DecidableEq, Repr

/-- Route `avaliar` (src/app.py lines 426-440): requires a logged-in
session, resolves the user row, and inserts one `Avaliacao` row for the
given `produto_id`. No lookup of the product is performed anywhere. -/
def avaliar (st : Store) (sess : Session) (produto_id : Nat) (nota : Int)
    (comentario : String) : AvaliarResult :=
  match sess.usuario with
  | none => .authRequired
  | some uname =>
    match findUsuario st uname with
    | none => .crash
    | some usuario =>
      .ok { st with
        avaliacoes := st.avaliacoes ++
          [⟨st.nextAvaliacaoId, usuario.id, produto_id, nota, comentario⟩],
        nextAvaliacaoId := st.nextAvaliacaoId + 1 }

/-! ### Reporting (src/app.py lines 579-632 and 635-711) -/

/-- The `dados` list of `relatorios_admin` (lines 590-595): product names of
all `ItemPedido` rows whose product relationship resolves (`if item.produto:`
skips dangling references). -/
def dados_relatorio (st : Store) : List String :=
  st.itens.filterMap (fun it => (findProduto st it.produto_id).map (·.nome))

/-- The frequency table `df["produto"].value_counts()` (line 603): one entry
per distinct name with its number of rows. (pandas additionally orders by
descending count; no claim depends on the order.) -/
def value_counts (l : List String) : List (String × Nat) :=
  l.dedup.map (fun s => (s, l.count s))

/-- The relationship `pedido.itens` (line 72): all `ItemPedido` rows whose
`pedido_id` is the order's id. -/
def pedidoItens (st : Store) (p : Pedido) : List ItemPedido :=
  st.itens.filter (fun it => it.pedido_id == p.id)

/-- One step of the revenue loop of `enviar_relatorio` (line 648):
`total_vendas += item.produto.preco`. There is NO `if item.produto` guard
here: a dangling product reference makes `item.produto` be `None` and
`.preco` raise an `AttributeError`, modelled by `none`. -/
def addItemPreco (st : Store) (acc : Option ℚ) (it : ItemPedido) : Option ℚ :=
  match acc, findProduto st it.produto_id with
  | some t, some pr => some (t + pr.preco)
  | _, _ => none

/-- The inner loop `for item in pedido.itens` of `enviar_relatorio`
(lines 647-648). -/
def addPedidoVendas (st : Store) (acc : Option ℚ) (p : Pedido) : Option ℚ :=
  (pedidoItens st p).foldl (addItemPreco st) acc

/-- The revenue loop of `enviar_relatorio` (lines 644-648):
`for pedido in pedidos: for item in pedido.itens: total_vendas +=
item.produto.preco`, starting from `total_vendas = 0`. -/
def total_vendas (st : Store) : Option ℚ :=
  st.pedidos.foldl (addPedidoVendas st) (some 0)

/-- The straightforward revenue sum: over each order, the prices of the
items whose product resolves. `total_vendas` agrees with it whenever every
reference resolves. -/
def revenueAll (st : Store) : ℚ :=
  (st.pedidos.map (fun p =>
    ((pedidoItens st p).filterMap
      (fun it => (findProduto st it.produto_id).map (·.preco))).sum)).sum

/-! ### Concrete fixtures, used to instantiate the theorems below -/

/-- A catalog product priced 10.00. -/
def prodA : Produto := ⟨1, "Whey", "a.png", 10⟩

/-- A catalog product priced 5.00. -/
def prodB : Produto := ⟨2, "Creatina", "b.png", 5⟩

/-- A registered user. -/
def exUser : Usuario := ⟨1, "ana", "pw"⟩

/-- A store with two products and one user and no orders yet. -/
def exStore : Store := ⟨[prodA, prodB], [exUser], [], [], [], [], 1, 1, 1, 1⟩

/-- An authenticated session whose cart holds 2 units of product 1 and
1 unit of product 2 (keys are the strings written by
`adicionar_ao_carrinho`). -/
def exSession : Session :=
  ⟨some "ana", [(PyKey.pstr "1", 2), (PyKey.pstr "2", 1)], none, none⟩

/-- An authenticated session with an empty cart. -/
def exSessionEmpty : Session := ⟨some "ana", [], none, none⟩

/-- A complete checkout form (`complemento` is optional and absent). -/
def exForm : CheckoutForm :=
  ⟨some "12345678", some "Rua X", some "10", none, some "Centro",
    some "Sao Paulo", some "SP", some "ana@ex.com"⟩

/-- The same form with the postal code absent. -/
def exFormSemCep : CheckoutForm := { exForm with cep := none }

/-- A store holding one order with one item whose `produto_id` (99) matches
no product row: a dangling product reference. -/
def exStoreDangling : Store :=
  ⟨[], [exUser], [⟨1, 1⟩], [⟨1, 1, 99⟩], [], [], 2, 2, 1, 1⟩

/-- A completely empty store: zero orders. -/
def exStoreVazio : Store := ⟨[], [], [], [], [], [], 1, 1, 1, 1⟩

/-- The store produced by checking out `exSessionEmpty` against `exStore`
with `exForm`: one new order and its address, no items. -/
def exStoreAposVazio : Store :=
  ⟨[prodA, prodB], [exUser], [⟨1, 1⟩], [],
    [⟨1, 1, some "12345678", some "Rua X", some "10", none, some "Centro",
      some "Sao Paulo", some "SP"⟩],
    [], 2, 1, 2, 1⟩

/-! ### Helper lemmas -/

theorem cartGet_mem {c : Cart} {k : PyKey} {q : Int}
    (h : cartGet c k = some q) : (k, q) ∈ c := by
  induction c with
  | nil => simp [cartGet] at h
  | cons kv rest ih =>
    obtain ⟨k', v⟩ := kv
    by_cases hk : k' = k
    · simp [cartGet, hk] at h
      simp [hk, h]
    · simp [cartGet, hk] at h
      exact List.mem_cons_of_mem _ (ih h)

theorem mem_cartSet {c : Cart} {k : PyKey} {v : Int} {kv : PyKey × Int}
    (h : kv ∈ cartSet c k v) : kv.2 = v ∨ kv ∈ c := by
  induction c with
  | nil => simp [cartSet] at h; simp [h]
  | cons kv' rest ih =>
    obtain ⟨k', v'⟩ := kv'
    by_cases hk : k' = k
    · simp [cartSet, hk] at h
      rcases h with h | h
      · left; simp [h]
      · right; exact List.mem_cons_of_mem _ h
    · simp [cartSet, hk] at h
      rcases h with h | h
      · right; simp [h]
      · rcases ih h with h' | h'
        · left; exact h'
        · right; exact List.mem_cons_of_mem _ h'

theorem mem_cartDel {c : Cart} {k : PyKey} {kv : PyKey × Int}
    (h : kv ∈ cartDel c k) : kv ∈ c := by
  induction c with
  | nil => simp [cartDel] at h
  | cons kv' rest ih =>
    obtain ⟨k', v'⟩ := kv'
    by_cases hk : k' = k
    · simp [cartDel, hk] at h
      exact List.mem_cons_of_mem _ h
    · simp [cartDel, hk] at h
      rcases h with h | h
      · simp [h]
      · exact List.mem_cons_of_mem _ (ih h)

theorem cartInv_applyCartOp {c : Cart} (hc : cartInv c) (op : CartOp) :
    cartInv (applyCartOp c op) := by
  cases op with
  | add id =>
    intro kv hkv
    simp only [applyCartOp, adicionar_ao_carrinho] at hkv
    rcases mem_cartSet hkv with h | h
    · rw [h]
      cases hget : cartGet c (PyKey.pstr (toString id)) with
      | none => simp
      | some q =>
        have hq : 1 ≤ q := hc _ (cartGet_mem hget)
        simp only [Option.getD_some]
        omega
    · exact hc _ h
  | alterar id acao =>
    intro kv hkv
    simp only [applyCartOp, alterar_quantidade] at hkv
    split at hkv
    · exact hc _ hkv
    · rename_i q hget
      have hq : 1 ≤ q := hc _ (cartGet_mem hget)
      split at hkv
      · rcases mem_cartSet hkv with h | h
        · rw [h]; omega
        · exact hc _ h
      · split at hkv
        · split at hkv
          · exact hc _ (mem_cartDel hkv)
          · rename_i hz
            rcases mem_cartSet hkv with h | h
            · rw [h]; omega
            · exact hc _ h
        · exact hc _ hkv
  | remover id =>
    intro kv hkv
    simp only [applyCartOp, remover_do_carrinho] at hkv
    split at hkv
    · exact hc _ (mem_cartDel hkv)
    · exact hc _ hkv
  | limpar =>
    intro kv hkv
    simp [applyCartOp, limpar_carrinho] at hkv

theorem cartInv_foldl (ops : List CartOp) :
    ∀ c : Cart, cartInv c → cartInv (ops.foldl applyCartOp c) := by
  induction ops with
  | nil => intro c hc; simpa using hc
  | cons op rest ih =>
    intro c hc
    simp only [List.foldl_cons]
    exact ih _ (cartInv_applyCartOp hc op)

/-! ### Claims -/

/-- Claim C5: for every reachable cart state (starting from the empty cart
and applying any sequence of add, quantity-change, remove and clear
operations), every entry stored in the cart mapping has quantity ≥ 1; an
entry whose quantity would become ≤ 0 is removed, and a zero-quantity entry
is never observable. -/
theorem claim_c5_cart_quantities (ops : List CartOp) :
    ∀ kv ∈ runCartOps ops, 1 ≤ kv.2 := by
  intro kv hkv
  exact cartInv_foldl ops [] (by intro x hx; simp at hx) kv hkv

/-- Witness for C5 at a concrete operation sequence: adding product 1 twice
reaches the cart `{"1": 2}`, whose single entry has quantity ≥ 1. -/
theorem claim_c5_witness :
    1 ≤ ((PyKey.pstr "1", (2 : Int)) : PyKey × Int).2 :=
  claim_c5_cart_quantities [CartOp.add 1, CartOp.add 1]
    (PyKey.pstr "1", 2) (by decide)

/-- Claim C6 is FALSE on the code: `adicionar_ao_carrinho` stores the cart
entry under the string key `"7"`, while `remover_do_carrinho` tests the
int key `7` for membership, which is never present; the removal is a no-op
and the entry is still in the cart afterwards (yet line 306 flashes
"Produto removido do carrinho com sucesso!"). -/
theorem claim_c6_remover_e_noop :
    remover_do_carrinho (adicionar_ao_carrinho [] 7) 7 =
      [(PyKey.pstr "7", 1)] ∧
    cartHas (remover_do_carrinho (adicionar_ao_carrinho [] 7) 7)
      (PyKey.pstr "7") = true := by
  decide

/-- Claim C4: on a valid postal code, the quote produced by `calcular_frete`
has fee 0 — and the free-shipping flag of the cart view is set — if and
only if the cart subtotal is at least 250.00; otherwise the fee is 19.90
and the flag is unset. -/
theorem claim_c4_frete_gratis (st : Store) (sess : Session) (cep : String)
    (h8 : ¬ cep.length < 8) :
    ∃ sess', calcular_frete st sess (some cep) = some sess' ∧
      ((sess'.frete = some 0 ∧
          tem_frete_gratis (cartSubtotal st sess.carrinho) = true) ↔
        250 ≤ cartSubtotal st sess.carrinho) ∧
      (¬ 250 ≤ cartSubtotal st sess.carrinho →
        sess'.frete = some 19.90 ∧
          tem_frete_gratis (cartSubtotal st sess.carrinho) = false) := by
  have hcf : calcular_frete st sess (some cep) =
      some (freteSession st sess cep) := by
    simp only [calcular_frete, freteSession]
    rw [if_neg h8]
  refine ⟨_, hcf, ?_, ?_⟩
  · constructor
    · rintro ⟨hf, _⟩
      by_contra hlt
      simp only [freteSession] at hf
      have h19 : freteOf (cartSubtotal st sess.carrinho) = 19.90 := by
        simp [freteOf, hlt]
      rw [h19] at hf
      have : (19.90 : ℚ) = 0 := by simpa using hf
      norm_num at this
    · intro hge
      refine ⟨?_, ?_⟩
      · simp [freteSession, freteOf, hge]
      · simp [tem_frete_gratis, hge]
  · intro hlt
    refine ⟨?_, ?_⟩
    · simp [freteSession, freteOf, hlt]
    · simp [tem_frete_gratis, hlt]

/-- Witness for C4 at a concrete valid postal code and cart. -/
theorem claim_c4_witness :
    ∃ sess', calcular_frete exStore exSession (some "12345678") = some sess' ∧
      ((sess'.frete = some 0 ∧
          tem_frete_gratis (cartSubtotal exStore exSession.carrinho) = true) ↔
        250 ≤ cartSubtotal exStore exSession.carrinho) ∧
      (¬ 250 ≤ cartSubtotal exStore exSession.carrinho →
        sess'.frete = some 19.90 ∧
          tem_frete_gratis (cartSubtotal exStore exSession.carrinho) = false) :=
  claim_c4_frete_gratis exStore exSession "12345678" (by decide)

/-- Claim C7 (amended): `calcular_frete` validates only that the RAW postal
code input has at least 8 characters (no stripping is performed; an absent
field also rejects, since `not cep` is true for `None`); a shorter raw
input rejects with no quote and the session untouched, and a raw input of
length ≥ 8 always produces the quote. -/
theorem claim_c7_cep_validacao (st : Store) (sess : Session) (cep : String) :
    (cep.length < 8 → calcular_frete st sess (some cep) = none) ∧
    (¬ cep.length < 8 → calcular_frete st sess (some cep) =
      some (freteSession st sess cep)) ∧
    calcular_frete st sess none = none := by
  refine ⟨?_, ?_, rfl⟩
  · intro h
    simp only [calcular_frete]
    rw [if_pos h]
  · intro h
    simp only [calcular_frete, freteSession]
    rw [if_neg h]

/-- Witness for C7 (amended) at a concrete 7-character postal code. -/
theorem claim_c7_witness :
    calcular_frete exStore exSession (some "1234567") = none :=
  (claim_c7_cep_validacao exStore exSession "1234567").1 (by decide)

/-- Counterexample to C7 as stated: the input of seven spaces followed by
"1" has only 1 character after stripping — fewer than 8 — yet
`calcular_frete` accepts it and produces a quote, because the code checks
`len(cep) < 8` on the raw string without stripping. -/
theorem claim_c7_counterexample :
    (strippedChars "       1").length < 8 ∧
    (calcular_frete exStore exSession (some "       1")).isSome = true := by
  refine ⟨by decide, ?_⟩
  simp only [calcular_frete]
  rw [if_neg (by decide : ¬ ("       1".length < 8))]
  rfl

/-- Claim C2: an authenticated checkout request in which a required address
field (postal code, street, number, neighborhood, city, state or contact
email) is absent fails with the validation rejection of lines 366-368, and
no Order, Address or OrderItem row is created: the store is unchanged. -/
theorem claim_c2_campos_obrigatorios (st : Store) (sess : Session)
    (form : CheckoutForm) (emailFails : Bool) (uname : String)
    (hu : sess.usuario = some uname)
    (habs : form.cep = none ∨ form.rua = none ∨ form.numero = none ∨
      form.bairro = none ∨ form.cidade = none ∨ form.estado = none ∨
      form.email = none) :
    finalizar_compra st sess form emailFails = .validationError ∧
    checkoutStore st (finalizar_compra st sess form emailFails) = st := by
  have hfc : formComplete form = false := by
    rcases habs with h | h | h | h | h | h | h <;>
      simp [formComplete, truthy, h]
  have heq : finalizar_compra st sess form emailFails = .validationError := by
    simp only [finalizar_compra]
    rw [hu]
    simp [hfc]
  exact ⟨heq, by rw [heq]; rfl⟩

/-- Witness for C2: a form whose postal code is absent. -/
theorem claim_c2_witness :
    finalizar_compra exStore exSession exFormSemCep false =
      .validationError ∧
    checkoutStore exStore
      (finalizar_compra exStore exSession exFormSemCep false) = exStore :=
  claim_c2_campos_obrigatorios exStore exSession exFormSemCep false "ana"
    rfl (Or.inl rfl)

/-- Claim C10: submitting a review for ANY product identifier — also one
that references no existing product, since `avaliar` never looks the
product up — appends exactly one new `Avaliacao` row linked to the session
user and that identifier, and touches no other table. -/
theorem claim_c10_avaliar (st : Store) (sess : Session) (produto_id : Nat)
    (nota : Int) (comentario : String) (uname : String) (u : Usuario)
    (hu : sess.usuario = some uname)
    (hfind : findUsuario st uname = some u) :
    ∃ st', avaliar st sess produto_id nota comentario = .ok st' ∧
      st'.avaliacoes = st.avaliacoes ++
        [⟨st.nextAvaliacaoId, u.id, produto_id, nota, comentario⟩] ∧
      st'.produtos = st.produtos ∧ st'.pedidos = st.pedidos ∧
      st'.itens = st.itens := by
  have heq : avaliar st sess produto_id nota comentario =
      .ok { st with
        avaliacoes := st.avaliacoes ++
          [⟨st.nextAvaliacaoId, u.id, produto_id, nota, comentario⟩],
        nextAvaliacaoId := st.nextAvaliacaoId + 1 } := by
    simp only [avaliar]
    rw [hu]
    simp only [hfind]
  exact ⟨_, heq, rfl, rfl, rfl, rfl⟩

/-- Witness for C10: product identifier 99 references no product of
`exStore` (its catalog has ids 1 and 2 only), yet the review row is
created. -/
theorem claim_c10_witness :
    ∃ st', avaliar exStore exSession 99 5 "otimo" = .ok st' ∧
      st'.avaliacoes = exStore.avaliacoes ++
        [⟨exStore.nextAvaliacaoId, exUser.id, 99, 5, "otimo"⟩] ∧
      st'.produtos = exStore.produtos ∧ st'.pedidos = exStore.pedidos ∧
      st'.itens = exStore.itens :=
  claim_c10_avaliar exStore exSession 99 5 "otimo" "ana" exUser rfl rfl

/-- Claim C3: whenever a checkout with a working notifier commits — result
`ok` — the same checkout with a failing notifier still commits the very
same store and session and total: the exception of the e-mail send is
raised only after `db.session.commit()` and is caught and printed
(lines 412-420), so it neither propagates nor rolls anything back, and the
new order is present in the committed store. -/
theorem claim_c3_notificacao (st : Store) (sess : Session)
    (form : CheckoutForm) (st' : Store) (sess' : Session) (t : ℚ)
    (h : finalizar_compra st sess form false = .ok st' sess' t false) :
    finalizar_compra st sess form true = .ok st' sess' t true ∧
    ∃ p ∈ st'.pedidos, p.id = st.nextPedidoId := by
  cases hsu : sess.usuario with
  | none =>
    rw [finalizar_compra, hsu] at h
    simp at h
  | some uname =>
    by_cases hfc : formComplete form = true
    · cases hfu : findUsuario st uname with
      | none =>
        rw [finalizar_compra, hsu] at h
        simp [hfc, hfu] at h
      | some u =>
        rw [finalizar_compra, hsu] at h
        simp only [hfc, if_true, hfu] at h
        rw [finalizar_compra, hsu]
        simp only [hfc, if_true, hfu]
        rw [CheckoutResult.ok.injEq] at h
        obtain ⟨h1, h2, h3, -⟩ := h
        rw [CheckoutResult.ok.injEq]
        refine ⟨⟨h1, h2, h3, rfl⟩, ?_⟩
        rw [← h1]
        exact ⟨_, List.mem_append_right _ (List.mem_singleton_self _), rfl⟩
    · rw [finalizar_compra, hsu] at h
      simp [hfc] at h

/-- Witness for C3: checking out the empty cart commits order 1; with the
notifier failing the same store, session and total come back. -/
theorem claim_c3_witness :
    finalizar_compra exStore exSessionEmpty exForm true =
      .ok exStoreAposVazio exSessionEmpty 0 true ∧
    ∃ p ∈ exStoreAposVazio.pedidos, p.id = exStore.nextPedidoId :=
  claim_c3_notificacao exStore exSessionEmpty exForm exStoreAposVazio
    exSessionEmpty 0 (by decide)

/-- Claim C9: an authenticated checkout with an EMPTY cart and a complete
form is not rejected: it commits an order with its address, zero item rows
and total 0.00, and the cart stays empty. -/
theorem claim_c9_carrinho_vazio (st : Store) (sess : Session)
    (form : CheckoutForm) (emailFails : Bool) (uname : String) (u : Usuario)
    (hu : sess.usuario = some uname)
    (hfind : findUsuario st uname = some u)
    (hform : formComplete form = true)
    (hcart : sess.carrinho = []) :
    ∃ st' sess',
      finalizar_compra st sess form emailFails = .ok st' sess' 0 emailFails ∧
      st'.pedidos = st.pedidos ++ [⟨st.nextPedidoId, u.id⟩] ∧
      st'.enderecos = st.enderecos ++
        [⟨st.nextEnderecoId, st.nextPedidoId, form.cep, form.rua, form.numero,
          form.complemento, form.bairro, form.cidade, form.estado⟩] ∧
      st'.itens = st.itens ∧
      sess'.carrinho = [] := by
  rw [finalizar_compra, hu]
  simp only [hform, if_true, hfind, hcart, checkoutLoop]
  exact ⟨_, _, rfl, rfl, rfl, by simp, rfl⟩

/-- Witness for C9 at the concrete empty-cart session. -/
theorem claim_c9_witness :
    ∃ st' sess',
      finalizar_compra exStore exSessionEmpty exForm false =
        .ok st' sess' 0 false ∧
      st'.pedidos = exStore.pedidos ++ [⟨exStore.nextPedidoId, exUser.id⟩] ∧
      st'.enderecos = exStore.enderecos ++
        [⟨exStore.nextEnderecoId, exStore.nextPedidoId, exForm.cep,
          exForm.rua, exForm.numero, exForm.complemento, exForm.bairro,
          exForm.cidade, exForm.estado⟩] ∧
      st'.itens = exStore.itens ∧
      sess'.carrinho = [] :=
  claim_c9_carrinho_vazio exStore exSessionEmpty exForm false "ana" exUser
    rfl rfl (by decide) rfl

/-- The item-loop computation claim C1 needs: on the cart
`[(ka, 2), (kb, 1)]` with `ka` resolving to product `A` (price 10) and `kb`
to product `B` (price 5), `finalizar_compra`'s loop yields total 25 and the
three item rows 2 × A, 1 × B with consecutive ids. -/
theorem checkoutLoop_c1 (st : Store) (pid nid : Nat) (A B : Produto)
    (ka kb : PyKey)
    (hA : getProdutoByKey st ka = some A)
    (hB : getProdutoByKey st kb = some B)
    (hpa : A.preco = 10) (hpb : B.preco = 5) :
    checkoutLoop st pid [(ka, 2), (kb, 1)] 0 nid =
      (25, [⟨nid, pid, A.id⟩, ⟨nid + 1, pid, A.id⟩, ⟨nid + 2, pid, B.id⟩],
        nid + 3) := by
  simp only [checkoutLoop, hA, hB, hpa, hpb, Prod.mk.injEq]
  refine ⟨by push_cast; norm_num, ?_, by omega⟩
  simp [List.range_succ]

/-- Claim C1: an authenticated checkout of the cart `{A: 2, B: 1}` — A
priced 10.00, B priced 5.00 — with a complete address form commits, with
total 25.00; the rows linked to the new order are exactly 3 `ItemPedido`
rows (2 referencing A, 1 referencing B), and the session cart is empty
afterwards. -/
theorem claim_c1_checkout (st : Store) (sess : Session) (form : CheckoutForm)
    (emailFails : Bool) (uname : String) (u : Usuario) (A B : Produto)
    (ka kb : PyKey)
    (hu : sess.usuario = some uname)
    (hfind : findUsuario st uname = some u)
    (hform : formComplete form = true)
    (hA : getProdutoByKey st ka = some A)
    (hB : getProdutoByKey st kb = some B)
    (hpa : A.preco = 10) (hpb : B.preco = 5)
    (hcart : sess.carrinho = [(ka, 2), (kb, 1)])
    (hfresh : ∀ it ∈ st.itens, it.pedido_id ≠ st.nextPedidoId) :
    ∃ st' sess',
      finalizar_compra st sess form emailFails = .ok st' sess' 25 emailFails ∧
      sess'.carrinho = [] ∧
      st'.itens.filter (fun it => it.pedido_id == st.nextPedidoId) =
        [⟨st.nextItemId, st.nextPedidoId, A.id⟩,
         ⟨st.nextItemId + 1, st.nextPedidoId, A.id⟩,
         ⟨st.nextItemId + 2, st.nextPedidoId, B.id⟩] ∧
      st'.pedidos = st.pedidos ++ [⟨st.nextPedidoId, u.id⟩] := by
  rw [finalizar_compra, hu]
  simp only [hform, if_true, hfind, hcart,
    checkoutLoop_c1 st st.nextPedidoId st.nextItemId A B ka kb hA hB hpa hpb]
  refine ⟨_, _, rfl, rfl, ?_, rfl⟩
  rw [List.filter_append]
  have h1 : st.itens.filter
      (fun it => it.pedido_id == st.nextPedidoId) = [] := by
    rw [List.filter_eq_nil_iff]
    intro it hit
    simpa using hfresh it hit
  rw [h1]
  simp

/-- Witness for C1: `exStore` (product 1 at 10.00, product 2 at 5.00) with
the cart `{"1": 2, "2": 1}` and the complete form. -/
theorem claim_c1_witness :
    ∃ st' sess',
      finalizar_compra exStore exSession exForm false =
        .ok st' sess' 25 false ∧
      sess'.carrinho = [] ∧
      st'.itens.filter (fun it => it.pedido_id == exStore.nextPedidoId) =
        [⟨exStore.nextItemId, exStore.nextPedidoId, prodA.id⟩,
         ⟨exStore.nextItemId + 1, exStore.nextPedidoId, prodA.id⟩,
         ⟨exStore.nextItemId + 2, exStore.nextPedidoId, prodB.id⟩] ∧
      st'.pedidos = exStore.pedidos ++ [⟨exStore.nextPedidoId, exUser.id⟩] :=
  claim_c1_checkout exStore exSession exForm false "ana" exUser prodA prodB
    (PyKey.pstr "1") (PyKey.pstr "2") rfl rfl (by decide) (by decide)
    (by decide) rfl rfl rfl (by simp [exStore])

/-- A step of the revenue loop on an already-failed accumulator stays
failed. -/
theorem foldl_addItemPreco_none (st : Store) (l : List ItemPedido) :
    l.foldl (addItemPreco st) none = none := by
  induction l with
  | nil => rfl
  | cons it rest ih =>
    simp only [List.foldl_cons]
    have h : addItemPreco st none it = none := by
      simp [addItemPreco]
    rw [h]
    exact ih

/-- The inner revenue loop succeeds exactly when every item's product
reference resolves. -/
theorem foldl_addItemPreco_isSome (st : Store) (l : List ItemPedido) :
    ∀ t : ℚ, (l.foldl (addItemPreco st) (some t)).isSome = true ↔
      ∀ it ∈ l, (findProduto st it.produto_id).isSome = true := by
  induction l with
  | nil => intro t; simp
  | cons it rest ih =>
    intro t
    simp only [List.foldl_cons]
    cases hf : findProduto st it.produto_id with
    | none =>
      have h : addItemPreco st (some t) it = none := by
        simp [addItemPreco, hf]
      rw [h, foldl_addItemPreco_none]
      simp [List.forall_mem_cons, hf]
    | some pr =>
      have h : addItemPreco st (some t) it = some (t + pr.preco) := by
        simp [addItemPreco, hf]
      rw [h, ih]
      simp [List.forall_mem_cons, hf]

/-- When every reference resolves, the inner revenue loop adds the sum of
the resolved prices. -/
theorem foldl_addItemPreco_sum (st : Store) :
    ∀ l : List ItemPedido,
      (∀ it ∈ l, (findProduto st it.produto_id).isSome = true) →
      ∀ t : ℚ, l.foldl (addItemPreco st) (some t) =
        some (t + (l.filterMap
          (fun it => (findProduto st it.produto_id).map (·.preco))).sum) := by
  intro l
  induction l with
  | nil => intro _ t; simp
  | cons it rest ih =>
    intro hres t
    have h1 := hres it (List.mem_cons_self it rest)
    cases hf : findProduto st it.produto_id with
    | none => rw [hf] at h1; simp at h1
    | some pr =>
      have h : addItemPreco st (some t) it = some (t + pr.preco) := by
        simp [addItemPreco, hf]
      simp only [List.foldl_cons, h, List.filterMap_cons, hf,
        Option.map_some']
      rw [ih (fun it' h' => hres it' (List.mem_cons_of_mem _ h'))]
      simp only [List.sum_cons, Option.some.injEq]
      ring

/-- The outer revenue loop on an already-failed accumulator stays failed. -/
theorem foldl_addPedidoVendas_none (st : Store) (ps : List Pedido) :
    ps.foldl (addPedidoVendas st) none = none := by
  induction ps with
  | nil => rfl
  | cons p rest ih =>
    simp only [List.foldl_cons, addPedidoVendas, foldl_addItemPreco_none]
    exact ih

/-- The revenue loop succeeds exactly when, for every order, every one of
its items' product references resolves. -/
theorem foldl_addPedidoVendas_isSome (st : Store) :
    ∀ (ps : List Pedido) (t : ℚ),
      (ps.foldl (addPedidoVendas st) (some t)).isSome = true ↔
      ∀ p ∈ ps, ∀ it ∈ pedidoItens st p,
        (findProduto st it.produto_id).isSome = true := by
  intro ps
  induction ps with
  | nil => intro t; simp
  | cons p rest ih =>
    intro t
    simp only [List.foldl_cons]
    rcases h : addPedidoVendas st (some t) p with _ | t'
    · rw [foldl_addPedidoVendas_none]
      have hp : ¬ ∀ it ∈ pedidoItens st p,
          (findProduto st it.produto_id).isSome = true := by
        intro hall
        have : ((pedidoItens st p).foldl (addItemPreco st)
            (some t)).isSome = true :=
          (foldl_addItemPreco_isSome st (pedidoItens st p) t).mpr hall
        rw [show (pedidoItens st p).foldl (addItemPreco st) (some t) = none
          from h] at this
        simp at this
      simp [List.forall_mem_cons, hp]
    · rw [ih]
      have hp : ∀ it ∈ pedidoItens st p,
          (findProduto st it.produto_id).isSome = true := by
        apply (foldl_addItemPreco_isSome st (pedidoItens st p) t).mp
        rw [show (pedidoItens st p).foldl (addItemPreco st) (some t) =
          some t' from h]
        rfl
      simp only [List.forall_mem_cons]
      exact ⟨fun hrest => ⟨hp, hrest⟩, fun hand => hand.2⟩

/-- When every reference resolves, the revenue loop adds the per-order sums
of the resolved prices. -/
theorem foldl_addPedidoVendas_sum (st : Store) :
    ∀ ps : List Pedido,
      (∀ p ∈ ps, ∀ it ∈ pedidoItens st p,
        (findProduto st it.produto_id).isSome = true) →
      ∀ t : ℚ, ps.foldl (addPedidoVendas st) (some t) =
        some (t + (ps.map (fun p => ((pedidoItens st p).filterMap
          (fun it => (findProduto st it.produto_id).map (·.preco))).sum)).sum)
    := by
  intro ps
  induction ps with
  | nil => intro _ t; simp
  | cons p rest ih =>
    intro hres t
    simp only [List.foldl_cons]
    rw [show addPedidoVendas st (some t) p = _ from
      foldl_addItemPreco_sum st _ (hres p (List.mem_cons_self p rest)) t]
    rw [ih (fun p' h' => hres p' (List.mem_cons_of_mem _ h'))]
    simp only [List.map_cons, List.sum_cons, Option.some.injEq]
    ring

/-- Claim C8 (amended): on zero orders the report aggregation yields the
empty sum `some 0`, and on an empty item table the frequency table is
empty; the revenue sum of `enviar_relatorio` succeeds if and only if every
item reachable through an order has a resolving product reference — so the
aggregation DOES have an error path: a dangling reference makes
`item.produto.preco` raise — and when all references resolve it equals the
sum of the referenced products' prices. -/
theorem claim_c8_relatorio (st : Store) :
    (st.pedidos = [] → total_vendas st = some 0) ∧
    (st.itens = [] → value_counts (dados_relatorio st) = []) ∧
    ((total_vendas st).isSome = true ↔
      ∀ p ∈ st.pedidos, ∀ it ∈ pedidoItens st p,
        (findProduto st it.produto_id).isSome = true) ∧
    ((∀ p ∈ st.pedidos, ∀ it ∈ pedidoItens st p,
        (findProduto st it.produto_id).isSome = true) →
      total_vendas st = some (revenueAll st)) := by
  refine ⟨?_, ?_, ?_, ?_⟩
  · intro h
    rw [total_vendas, h]
    rfl
  · intro h
    rw [value_counts, dados_relatorio, h]
    rfl
  · rw [total_vendas]
    exact foldl_addPedidoVendas_isSome st st.pedidos 0
  · intro hres
    rw [total_vendas, foldl_addPedidoVendas_sum st st.pedidos hres 0,
      revenueAll]
    norm_num

/-- Witness for C8 (amended) on the empty store: empty frequency table and
zero revenue. -/
theorem claim_c8_witness :
    total_vendas exStoreVazio = some 0 ∧
    value_counts (dados_relatorio exStoreVazio) = [] :=
  ⟨(claim_c8_relatorio exStoreVazio).1 rfl,
   (claim_c8_relatorio exStoreVazio).2.1 rfl⟩

/-- Counterexample to C8 as stated: `exStoreDangling` holds one order whose
single item references the nonexistent product 99; the revenue loop of
`enviar_relatorio` fails on it (`item.produto` is `None`, so `.preco`
raises an `AttributeError`, modelled by `none`) — the aggregation is NOT
error-free. -/
theorem claim_c8_counterexample :
    total_vendas exStoreDangling = none ∧
    exStoreDangling.itens ≠ [] := by
  refine ⟨rfl, by simp [exStoreDangling]⟩
